import Mathlib

/-!
Verification of the natural-language task-intent pipeline of the task_master
repository (app/services/llama_ai_service.py), as a shallow embedding.

Conventions of the embedding:
* Python strings are Lean `String`s; `str.lower` is `pyLower` (the
  messages and keyword tables in the source are ASCII).
* Python `in` on strings (substring test) is `strContains`.
* The regular expressions of the source are hand-compiled leftmost-match
  scanners over `List Char`.
* The SQLAlchemy session is modelled by explicit state passing: a store is a
  `List Task`; each executor receives the store plus a `commitOk : Bool`
  modelling whether `db.commit()` succeeds; on `commitOk = false` the
  `except` branch runs `db.rollback()` and the original store is returned.
* `datetime.now()` is an abstract tick `now : Nat` passed explicitly; the
  autoincremented primary key of a created row is an explicit `new_id`.
* The external text-generation call (`_call_ollama`) either raises or
  returns a string; this is `OllamaReply`.  `json.loads` composed with the
  dict-shape conversion is an abstract `decode` parameter that may fail.
-/

namespace TaskMaster

/-! ## String primitives mirroring Python -/

/-- Python `\s` / `str.isspace` on the ASCII range: also form feed and
vertical tab, which Lean's `Char.isWhitespace` does not include. -/
def pySpace (c : Char) : Bool :=
  c.isWhitespace || c == '\x0b' || c == '\x0c'

/-- Python `str.lower` (the keyword tables and messages are ASCII).  Defined
by structural recursion over the character list so that it reduces in the
kernel, unlike `String.toLower`. -/
def pyLower (s : String) : String :=
  String.mk (s.toList.map Char.toLower)

/-- Split at every separator character, keeping empty pieces, as Python
`str.split(sep)` and Lean's `String.split` do. -/
def splitKeep (p : Char → Bool) : List Char → List (List Char)
  | [] => [[]]
  | c :: cs =>
    let r := splitKeep p cs
    if p c then [] :: r
    else
      match r with
      | w :: ws => (c :: w) :: ws
      | [] => [[c]]

/-- Does the second list occur at the head of the first? -/
def charsStartWith : List Char → List Char → Bool
  | _, [] => true
  | [], _ :: _ => false
  | a :: as, b :: bs => a == b && charsStartWith as bs

/-- Does `need` occur as a contiguous run anywhere in `hay`? -/
def charsContain (hay need : List Char) : Bool :=
  if charsStartWith hay need then true
  else
    match hay with
    | [] => false
    | _ :: t => charsContain t need

/-- Python `sub in s` (substring containment). -/
def strContains (s sub : String) : Bool :=
  charsContain s.toList sub.toList

/-- Python `str.split()` with no argument: split on whitespace runs,
discarding empty pieces. -/
def splitWs (s : String) : List String :=
  ((splitKeep pySpace s.toList).map String.mk).filter (fun w => !w.isEmpty)

/-- Python `str.split('.')`. -/
def splitDot (s : String) : List String :=
  (splitKeep (fun c => c == '.') s.toList).map String.mk

/-- Strip characters satisfying `p` from both ends of a string
(Python `str.strip(chars)`). -/
def stripBy (p : Char → Bool) (s : String) : String :=
  String.mk (((s.toList.dropWhile p).reverse.dropWhile p).reverse)

/-- Python `word.strip('.,!?;:')` as used by the keyword extractor. -/
def stripPunct (s : String) : String :=
  stripBy (fun c => c == '.' || c == ',' || c == '!' || c == '?' || c == ';' || c == ':') s

/-- Python `str.strip()` (whitespace from both ends). -/
def pyStrip (s : String) : String :=
  stripBy pySpace s

/-- Match a literal pattern (given lowercase) case-insensitively at the head
of the input, returning the remaining input on success. -/
def dropLit : List Char → List Char → Option (List Char)
  | [], cs => some cs
  | _ :: _, [] => none
  | p :: ps, c :: cs => if c.toLower == p then dropLit ps cs else none

/-- Leftmost-match search: try the matcher at every position, left to right,
as Python `re.search` does. -/
def scanFor (f : List Char → Option α) : List Char → Option α
  | [] => none
  | c :: t =>
    match f (c :: t) with
    | some r => some r
    | none => scanFor f t

/-- Numeric value of a run of decimal digits (Python `int` on the capture). -/
def digitsToNat (ds : List Char) : Nat :=
  ds.foldl (fun n c => n * 10 + (c.toNat - 48)) 0

/-! ## Data model (app/models/task.py, app/models/user.py)

Only the columns the pipeline touches are modelled.  `created_at` has a
server default, so it is a plain `Nat`; `updated_at` is `onupdate` only and
so nullable. -/

inductive TaskStatus
  | todo
  | in_progress
  | in_review
  | completed
deriving DecidableEq, Repr

inductive TaskPriority
  | low
  | medium
  | high
  | urgent
deriving DecidableEq, Repr

/-- The `.value` string of a `TaskStatus` member. -/
def statusVal : TaskStatus → String
  | .todo => "todo"
  | .in_progress => "in_progress"
  | .in_review => "in_review"
  | .completed => "completed"

/-- The `.value` string of a `TaskPriority` member. -/
def priorityVal : TaskPriority → String
  | .low => "low"
  | .medium => "medium"
  | .high => "high"
  | .urgent => "urgent"

structure Task where
  id : Nat
  title : String
  description : Option String := none
  status : TaskStatus := .todo
  priority : TaskPriority := .medium
  owner_id : Nat
  created_by_id : Nat
  assigned_to_id : Option Nat := none
  reviewer_id : Option Nat := none
  due_date : Option String := none
  estimated_minutes : Option Nat := none
  completed_at : Option Nat := none
  created_at : Nat := 0
  updated_at : Option Nat := none
deriving DecidableEq, Repr

structure User where
  id : Nat
  username : String
  full_name : Option String := none
deriving DecidableEq, Repr

/-! ## Parameter Extractor (pure helper functions of the service) -/

/-- The stop-word set of `_extract_keywords_from_message`. -/
def stop_words : List String :=
  ["the", "a", "an", "to", "from", "in", "on", "at", "for", "with", "by",
   "and", "or", "but", "task", "change", "update", "move", "edit", "delete",
   "priority", "status"]

/-- `_extract_keywords_from_message`: lowercase, split on whitespace, keep
words whose punctuation-stripped form is not a stop word and whose RAW form
is longer than 2 characters, return the stripped forms, first 3. -/
def extract_keywords_from_message (message : String) : List String :=
  let words := splitWs (pyLower message)
  let keywords :=
    (words.filter (fun w =>
      !(stop_words.contains (stripPunct w)) && decide (2 < w.length))).map stripPunct
  keywords.take 3

/-- The status keyword table of `_extract_status_from_message` and
`_extract_changes_from_message` (insertion order of the Python dict). -/
def status_keywords : List (String × List String) :=
  [("todo", ["todo", "to do", "pending"]),
   ("in_progress", ["in progress", "progress", "working", "active"]),
   ("in_review", ["in review", "review", "reviewing"]),
   ("completed", ["completed", "done", "finished", "complete"])]

/-- `_extract_status_from_message`: first status (in table order) any of
whose keywords is a substring of the lowercased message. -/
def extract_status_from_message (message : String) : Option String :=
  let ml := pyLower message
  (status_keywords.find? (fun p => p.2.any (fun k => strContains ml k))).map (fun p => p.1)

/-- Priority names in the order the source scans them. -/
def priorities_ordered : List String :=
  ["urgent", "high", "medium", "low"]

/-- Match `\s+` then optional `["']` then a nonempty greedy capture of
non-quote characters, as in the tails of the source's capture regexes. -/
def tailCap (r : List Char) : Option String :=
  let ws := r.takeWhile pySpace
  if ws.isEmpty then none
  else
    let r3 := (r.drop ws.length)
    let r4 :=
      match r3 with
      | c :: rest => if c == '"' || c == '\'' then rest else r3
      | [] => r3
    let cap := r4.takeWhile (fun c => c != '"' && c != '\'')
    if cap.isEmpty then none else some (String.mk cap)

/-- Match one pattern `pat` case-insensitively then `tailCap`, at the head:
the body of `pat\s+["']?([^"']+)["']?`. -/
def capAt (pat : List Char) (cs : List Char) : Option String :=
  match dropLit pat cs with
  | none => none
  | some r => tailCap r

/-- The body of `description\s+to\s+["']?([^"']+)["']?` at the head. -/
def descAt (cs : List Char) : Option String :=
  match dropLit "description".toList cs with
  | none => none
  | some r1 =>
    let ws := r1.takeWhile pySpace
    if ws.isEmpty then none
    else
      match dropLit "to".toList (r1.drop ws.length) with
      | none => none
      | some r2 => tailCap r2

/-- `_extract_changes_from_message` builds its dict in the order priority,
status, description; modelled as an association list in insertion order. -/
def extract_changes_from_message (message : String) : List (String × String) :=
  let ml := pyLower message
  let c1 : List (String × String) :=
    if strContains ml "priority" then
      match priorities_ordered.find? (fun p => strContains ml p) with
      | some p => [("priority", p)]
      | none => []
    else []
  let c2 :=
    match (status_keywords.find? (fun p => p.2.any (fun k => strContains ml k))).map (fun p => p.1) with
    | some st => c1 ++ [("status", st)]
    | none => c1
  if strContains ml "description" then
    match scanFor descAt message.toList with
    | some d => c2 ++ [("description", pyStrip d)]
    | none => c2
  else c2

/-- `_extract_assignee_from_message`: first user whose username or full name
occurs in the lowercased message. -/
def extract_assignee_from_message (message : String) (users : List User) : Option User :=
  users.find? (fun u =>
    strContains (pyLower message) (pyLower u.username) ||
    (match u.full_name with
     | some fn => strContains (pyLower message) (pyLower fn)
     | none => false))

def priorityOfString : String → Option TaskPriority
  | "low" => some .low
  | "medium" => some .medium
  | "high" => some .high
  | "urgent" => some .urgent
  | _ => none

/-- The status keyword table of `_extract_filters_from_message`; it differs
from `status_keywords` (no "active", no "complete"). -/
def filter_status_keywords : List (TaskStatus × List String) :=
  [(.todo, ["todo", "to do", "pending"]),
   (.in_progress, ["in progress", "progress", "working"]),
   (.in_review, ["in review", "review", "reviewing"]),
   (.completed, ["completed", "done", "finished"])]

structure Filters where
  priority : Option TaskPriority := none
  status : Option TaskStatus := none
  search_term : Option String := none
deriving DecidableEq, Repr

/-- `_extract_filters_from_message`. -/
def extract_filters_from_message (message : String) : Filters :=
  let ml := pyLower message
  let prio :=
    match priorities_ordered.find? (fun p => strContains ml p) with
    | some p => priorityOfString p
    | none => none
  let st := (filter_status_keywords.find? (fun p => p.2.any (fun k => strContains ml k))).map (fun p => p.1)
  let terms1 : List String :=
    if strContains ml "with" then
      match scanFor (capAt "with".toList) message.toList with
      | some s => [pyStrip s]
      | none => []
    else []
  let terms2 : List String :=
    if strContains ml "containing" then
      match scanFor (capAt "containing".toList) message.toList with
      | some s => terms1 ++ [pyStrip s]
      | none => terms1
    else terms1
  { priority := prio, status := st,
    search_term := if terms2.isEmpty then none else some (String.intercalate " " terms2) }

/-! ## Task Locator (`_find_task_from_message`) -/

/-- The body of `#(\d+)` at the head of the input. -/
def hashRefAt : List Char → Option Nat
  | '#' :: rest =>
    let ds := rest.takeWhile Char.isDigit
    if ds.isEmpty then none else some (digitsToNat ds)
  | _ => none

/-- The body of `task\s+(\d+)` (case-insensitive) at the head of the input. -/
def taskRefAt (cs : List Char) : Option Nat :=
  match dropLit "task".toList cs with
  | none => none
  | some r =>
    let ws := r.takeWhile pySpace
    if ws.isEmpty then none
    else
      let ds := (r.drop ws.length).takeWhile Char.isDigit
      if ds.isEmpty then none else some (digitsToNat ds)

/-- One position of `re.search(r'#(\d+)|task\s+(\d+)', ..., IGNORECASE)`:
the first alternative is preferred at a given start position. -/
def refAt (cs : List Char) : Option Nat :=
  match hashRefAt cs with
  | some n => some n
  | none => taskRefAt cs

/-- The explicit task reference of a message, if any (leftmost match). -/
def findTaskRef (cs : List Char) : Option Nat :=
  scanFor refAt cs

/-- The owner-scoped fetch `db.query(Task).filter(Task.id == task_id,
Task.owner_id == user_id).first()`. -/
def ownedTask (task_id user_id : Nat) (t : Task) : Bool :=
  t.id == task_id && t.owner_id == user_id

/-- Conjunctive case-insensitive keyword match against title and description
(`ilike` on a NULL description matches nothing). -/
def taskMatchesKeywords (kws : List String) (t : Task) : Bool :=
  kws.all (fun k =>
    strContains (pyLower t.title) k ||
    (match t.description with
     | some d => strContains (pyLower d) k
     | none => false))

/-- Python `max(tasks, key=lambda t: t.created_at)`: first maximum wins. -/
def maxByCreated (t : Task) : List Task → Task
  | [] => t
  | u :: us => if u.created_at > t.created_at then maxByCreated u us else maxByCreated t us

/-- `_find_task_from_message`: explicit `#id`/`task id` reference first
(owner-scoped direct fetch, keyword search skipped), else keyword search
limited to 5 hits with recency tie-break. -/
def find_task_from_message (message : String) (user_id : Nat) (store : List Task) : Option Task :=
  match findTaskRef message.toList with
  | some tid => store.find? (ownedTask tid user_id)
  | none =>
    let keywords := extract_keywords_from_message message
    if keywords.isEmpty then none
    else
      let tasks :=
        ((store.filter (fun t => t.owner_id == user_id)).filter
          (taskMatchesKeywords keywords)).take 5
      match tasks with
      | [] => none
      | [t] => some t
      | t :: ts => some (maxByCreated t ts)

/-! ## Natural-language task parsing (`parse_natural_language_task`) -/

/-- The raw reply from `_call_ollama`: either an exception (network error,
timeout, non-2xx) or the reply string. -/
inductive OllamaReply
  | err
  | ok (response : String)

/-- Parsed task data as a JSON-like record; a `none` field models an absent
key of the Python dict. -/
structure ParsedTask where
  title : Option String := none
  description : Option String := none
  priority : Option String := none
  status : Option String := none
  due_date : Option String := none
  assigned_to_id : Option Nat := none
  reviewer_id : Option Nat := none
  estimated_minutes : Option Nat := none
deriving DecidableEq, Repr

def valid_priorities : List String :=
  ["low", "medium", "high", "urgent"]

def valid_statuses : List String :=
  ["todo", "in_progress", "in_review", "completed"]

/-- The title step of `_validate_parsed_task`: a falsy (absent or empty)
title becomes "New Task". -/
def vTitle (td : ParsedTask) : ParsedTask :=
  if (td.title.getD "").isEmpty then { td with title := some "New Task" } else td

/-- The priority step of `_validate_parsed_task`: out-of-vocabulary (or
absent) priority becomes "medium". -/
def vPriority (td : ParsedTask) : ParsedTask :=
  if valid_priorities.contains (td.priority.getD "") then td
  else { td with priority := some "medium" }

/-- The status step of `_validate_parsed_task`: out-of-vocabulary (or
absent) status becomes "todo". -/
def vStatus (td : ParsedTask) : ParsedTask :=
  if valid_statuses.contains (td.status.getD "") then td
  else { td with status := some "todo" }

/-- The due-date step of `_validate_parsed_task`: a truthy due date without
a "T" gets a time suffix appended. -/
def vDue (td : ParsedTask) : ParsedTask :=
  match td.due_date with
  | some d =>
    if !d.isEmpty && !(strContains d "T") then { td with due_date := some (d ++ "T23:59:59Z") }
    else td
  | none => td

/-- `_validate_parsed_task`: the source performs the four normalisation
steps in sequence on the same dict. -/
def validate_parsed_task (td : ParsedTask) : ParsedTask :=
  vDue (vStatus (vPriority (vTitle td)))

/-- `_fallback_parse`: heuristic parse without the model.  `tomorrowStr` and
`nextWeekStr` stand for the formatted `datetime.now() + 1 day / 7 days`. -/
def fallback_parse (user_input : String) (tomorrowStr nextWeekStr : String) : ParsedTask :=
  let title0 := pyStrip ((splitDot user_input).headD "")
  let title :=
    if title0.length > 100 then String.mk (title0.toList.take 97) ++ "..." else title0
  let low := pyLower user_input
  let priority :=
    if ["urgent", "asap", "critical"].any (fun w => strContains low w) then "urgent"
    else if ["high", "important"].any (fun w => strContains low w) then "high"
    else if ["low", "minor"].any (fun w => strContains low w) then "low"
    else "medium"
  let due :=
    if strContains low "tomorrow" then some tomorrowStr
    else if strContains low "next week" then some nextWeekStr
    else none
  { title := some title, description := some user_input,
    priority := some priority, status := some "todo", due_date := due }

/-- The widest brace-delimited span of a reply: `re.search(r'\{.*\}', s,
re.DOTALL)` takes from the first opening brace to the last closing brace. -/
def braceSpan (s : String) : Option String :=
  let cs := s.toList
  match cs.findIdx? (fun c => c == '\x7b') with
  | none => none
  | some i =>
    match cs.reverse.findIdx? (fun c => c == '\x7d') with
    | none => none
    | some r =>
      let j := cs.length - 1 - r
      if i < j then some (String.mk ((cs.drop i).take (j - i + 1))) else none

/-- `parse_natural_language_task`: decode the brace span of the model reply
and validate it; on an exception, a missing span, or a decode failure, fall
back to the heuristic parse.  `decode` stands for `json.loads` plus the
dict-shape reading, failing with `none` where Python raises. -/
def parse_natural_language_task (decode : String → Option ParsedTask)
    (reply : OllamaReply) (user_input : String) (tomorrowStr nextWeekStr : String) : ParsedTask :=
  match reply with
  | .err => fallback_parse user_input tomorrowStr nextWeekStr
  | .ok response =>
    match braceSpan response with
    | none => fallback_parse user_input tomorrowStr nextWeekStr
    | some js =>
      match decode js with
      | some result => validate_parsed_task result
      | none => fallback_parse user_input tomorrowStr nextWeekStr

/-! ## Intent Classifier (`_classify_intent`, `_fallback_classify`) -/

structure Intent where
  action : String
  confidence : ℚ
  data : List (String × String) := []
deriving DecidableEq, Repr

/-- The ten-member action vocabulary of the classifier prompt. -/
def actionVocab : List String :=
  ["create_task", "edit_task", "delete_task", "move_task", "assign_task",
   "query_tasks", "bulk_operation", "status_request", "help", "general"]

/-- `_fallback_classify`: deterministic keyword table in fixed priority
order, defaulting to `general` at confidence 0.5. -/
def fallback_classify (message : String) : Intent :=
  let ml := pyLower message
  if ["create", "add", "new task", "make"].any (fun w => strContains ml w) then
    { action := "create_task", confidence := 0.7 }
  else if ["edit", "change", "update", "modify"].any (fun w => strContains ml w) then
    { action := "edit_task", confidence := 0.6 }
  else if ["delete", "remove", "cancel"].any (fun w => strContains ml w) then
    { action := "delete_task", confidence := 0.6 }
  else if ["move", "transfer", "shift"].any (fun w => strContains ml w) then
    { action := "move_task", confidence := 0.6 }
  else if ["assign", "give to"].any (fun w => strContains ml w) then
    { action := "assign_task", confidence := 0.6 }
  else if ["find", "search", "show", "list"].any (fun w => strContains ml w) then
    { action := "query_tasks", confidence := 0.6 }
  else if ["status", "progress", "summary"].any (fun w => strContains ml w) then
    { action := "status_request", confidence := 0.7 }
  else if ["help", "what can you do"].any (fun w => strContains ml w) then
    { action := "help", confidence := 0.8 }
  else
    { action := "general", confidence := 0.5 }

/-- None of the keyword-table conditions of `_fallback_classify` hold of the
message: the classifier falls through to its default. -/
def no_fallback_keyword (message : String) : Bool :=
  let ml := pyLower message
  !(["create", "add", "new task", "make"].any (fun w => strContains ml w)) &&
  !(["edit", "change", "update", "modify"].any (fun w => strContains ml w)) &&
  !(["delete", "remove", "cancel"].any (fun w => strContains ml w)) &&
  !(["move", "transfer", "shift"].any (fun w => strContains ml w)) &&
  !(["assign", "give to"].any (fun w => strContains ml w)) &&
  !(["find", "search", "show", "list"].any (fun w => strContains ml w)) &&
  !(["status", "progress", "summary"].any (fun w => strContains ml w)) &&
  !(["help", "what can you do"].any (fun w => strContains ml w))

/-- `_classify_intent`: decode the brace span of the model reply, falling
back to the keyword classifier on exception, missing span, or decode
failure.  Never raises. -/
def classify_intent (decode : String → Option Intent) (reply : OllamaReply)
    (message : String) : Intent :=
  match reply with
  | .err => fallback_classify message
  | .ok response =>
    match braceSpan response with
    | none => fallback_classify message
    | some js =>
      match decode js with
      | some result => result
      | none => fallback_classify message

/-! ## Action Executor (`execute_*`) -/

structure ExecResult where
  success : Bool
  message : String
  task : Option Task := none
deriving DecidableEq, Repr

/-- The executor's string-to-enum status map (`dict.get` with default on the
creation path, key test on the edit/move paths). -/
def status_map (s : String) : Option TaskStatus :=
  if s = "todo" then some .todo
  else if s = "in_progress" then some .in_progress
  else if s = "in_review" then some .in_review
  else if s = "completed" then some .completed
  else none

def priority_map (s : String) : Option TaskPriority :=
  if s = "low" then some .low
  else if s = "medium" then some .medium
  else if s = "high" then some .high
  else if s = "urgent" then some .urgent
  else none

/-- `execute_task_creation`: inserts a fresh row; `completed_at` is never
set by this path, whatever the requested status.  A payload without a title
raises `KeyError` in the source, caught as a rollback-and-fail. -/
def execute_task_creation (task_data : ParsedTask) (user_id : Nat)
    (store : List Task) (commitOk : Bool) (now new_id : Nat) : ExecResult × List Task :=
  match task_data.title with
  | none =>
    ({ success := false, message := "❌ Failed to create task: 'title'" }, store)
  | some ti =>
    let t : Task :=
      { id := new_id, title := ti,
        description := some (task_data.description.getD ""),
        status := (status_map (task_data.status.getD "todo")).getD .todo,
        priority := (priority_map (task_data.priority.getD "medium")).getD .medium,
        owner_id := user_id, created_by_id := user_id,
        assigned_to_id := task_data.assigned_to_id,
        reviewer_id := task_data.reviewer_id,
        due_date := task_data.due_date,
        estimated_minutes := task_data.estimated_minutes,
        completed_at := none, created_at := now, updated_at := none }
    if commitOk then
      ({ success := true, task := some t,
         message := "✅ Task '" ++ ti ++ "' created successfully!" }, store ++ [t])
    else
      ({ success := false, message := "❌ Failed to create task: commit failed" }, store)

/-- The field-update loop of `execute_task_edit`, in payload order; invalid
values fall through without effect, exactly as the `if/elif` chain does.
Returns the updated row and the `updated_fields` log. -/
def apply_changes : Task → List String → List (String × String) → Task × List String
  | t, ups, [] => (t, ups)
  | t, ups, (f, v) :: rest =>
    if f == "priority" then
      match priority_map v with
      | some p => apply_changes { t with priority := p } (ups ++ ["priority → " ++ v]) rest
      | none => apply_changes t ups rest
    else if f == "status" then
      match status_map v with
      | some s => apply_changes { t with status := s } (ups ++ ["status → " ++ v]) rest
      | none => apply_changes t ups rest
    else if f == "description" then
      apply_changes { t with description := some v } (ups ++ ["description → " ++ v]) rest
    else if f == "title" then
      apply_changes { t with title := v } (ups ++ ["title → " ++ v]) rest
    else apply_changes t ups rest

/-- `execute_task_edit`: owner-scoped fetch, apply the valid changes, commit.
Note that this path never touches `completed_at`, even when the status
change is to or from `completed`. -/
def execute_task_edit (task_id : Nat) (changes : List (String × String))
    (user_id : Nat) (store : List Task) (commitOk : Bool) (now : Nat) : ExecResult × List Task :=
  match store.find? (ownedTask task_id user_id) with
  | none => ({ success := false, message := "❌ Task not found" }, store)
  | some task =>
    let up := apply_changes task [] changes
    if up.2.isEmpty then
      ({ success := false, message := "❌ No valid changes found" }, store)
    else
      let t2 := { up.1 with updated_at := some now }
      if commitOk then
        ({ success := true, task := some t2,
           message := "✅ Task '" ++ t2.title ++ "' updated successfully! Changes: " ++
             String.intercalate ", " up.2 },
         store.map (fun u => if ownedTask task_id user_id u then t2 else u))
      else
        ({ success := false, message := "❌ Failed to update task: commit failed" }, store)

/-- `execute_task_move`: owner-scoped fetch, status change with the
`completed_at` discipline (set on `completed`, cleared otherwise). -/
def execute_task_move (task_id : Nat) (new_status : String) (user_id : Nat)
    (store : List Task) (commitOk : Bool) (now : Nat) : ExecResult × List Task :=
  match store.find? (ownedTask task_id user_id) with
  | none => ({ success := false, message := "❌ Task not found" }, store)
  | some task =>
    match status_map new_status with
    | none => ({ success := false, message := "❌ Invalid status: " ++ new_status }, store)
    | some st =>
      let old_status := statusVal task.status
      let t1 : Task := { task with status := st, updated_at := some now }
      let t2 : Task :=
        if new_status == "completed" then { t1 with completed_at := some now }
        else if t1.completed_at.isSome then { t1 with completed_at := none }
        else t1
      if commitOk then
        ({ success := true, task := some t2,
           message := "✅ Task '" ++ t2.title ++ "' moved from " ++ old_status ++
             " to " ++ new_status ++ "!" },
         store.map (fun u => if ownedTask task_id user_id u then t2 else u))
      else
        ({ success := false, message := "❌ Failed to move task: commit failed" }, store)

/-- `execute_task_assignment`: the task fetch is owner-scoped; the assignee
is looked up in the full user directory by id. -/
def execute_task_assignment (task_id assignee_id user_id : Nat)
    (store : List Task) (users : List User) (commitOk : Bool) (now : Nat) : ExecResult × List Task :=
  match store.find? (ownedTask task_id user_id) with
  | none => ({ success := false, message := "❌ Task not found" }, store)
  | some task =>
    match users.find? (fun u => u.id == assignee_id) with
    | none => ({ success := false, message := "❌ Assignee not found" }, store)
    | some assignee =>
      let t2 : Task := { task with assigned_to_id := some assignee_id, updated_at := some now }
      if commitOk then
        ({ success := true, task := some t2,
           message := "✅ Task '" ++ t2.title ++ "' assigned to " ++ assignee.username ++ "!" },
         store.map (fun u => if ownedTask task_id user_id u then t2 else u))
      else
        ({ success := false, message := "❌ Failed to assign task: commit failed" }, store)

/-- `execute_task_deletion`: owner-scoped fetch, then delete that row. -/
def execute_task_deletion (task_id user_id : Nat) (store : List Task)
    (commitOk : Bool) : ExecResult × List Task :=
  match store.find? (ownedTask task_id user_id) with
  | none => ({ success := false, message := "❌ Task not found" }, store)
  | some task =>
    if commitOk then
      ({ success := true, message := "✅ Task '" ++ task.title ++ "' deleted successfully!" },
       store.filter (fun u => !ownedTask task_id user_id u))
    else
      ({ success := false, message := "❌ Failed to delete task: commit failed" }, store)

/-- The row selector of `execute_bulk_operation`: id among the payload ids
and owned by the requester. -/
def bulkSel (task_ids : List Nat) (user_id : Nat) (t : Task) : Bool :=
  task_ids.contains t.id && t.owner_id == user_id

/-- `execute_bulk_operation`: supports exactly `delete` and `complete` over
the owner's rows among the payload ids; anything else is rejected. -/
def execute_bulk_operation (operation : String) (task_ids : List Nat) (user_id : Nat)
    (store : List Task) (commitOk : Bool) (now : Nat) : ExecResult × List Task :=
  let tasks := store.filter (bulkSel task_ids user_id)
  if tasks.isEmpty then
    ({ success := false, message := "❌ No tasks found" }, store)
  else if operation == "delete" then
    if commitOk then
      ({ success := true,
         message := "✅ " ++ toString tasks.length ++ " tasks deleted successfully!" },
       store.filter (fun t => !bulkSel task_ids user_id t))
    else
      ({ success := false, message := "❌ Failed to execute bulk operation: commit failed" }, store)
  else if operation == "complete" then
    if commitOk then
      ({ success := true,
         message := "✅ " ++ toString tasks.length ++ " tasks marked as completed!" },
       store.map (fun t =>
         if bulkSel task_ids user_id t then
           { t with status := .completed, completed_at := some now, updated_at := some now }
         else t))
    else
      ({ success := false, message := "❌ Failed to execute bulk operation: commit failed" }, store)
  else
    ({ success := false, message := "❌ Unsupported bulk operation: " ++ operation }, store)

/-! ## Action Proposer (the `_handle_*` methods)

Each handler receives the task store (and, where the source queries them,
the user directory) and returns its chat response together with the store it
leaves behind; the source handlers only ever read, which the frame theorems
make explicit.  The `data` dict of the response is flattened into optional
fields. -/

structure ChatResult where
  action : String
  message : String
  confirmation_needed : Bool := false
  task_id : Option Nat := none
  task_title : Option String := none
  changes : List (String × String) := []
  current_status : Option String := none
  new_status : Option String := none
  assignee_id : Option Nat := none
  assignee_name : Option String := none
  operation : Option String := none
  task_count : Option Nat := none
  task_ids : List Nat := []
  parsed : Option ParsedTask := none
deriving DecidableEq, Repr

/-- `_format_changes`. -/
def format_changes (changes : List (String × String)) : String :=
  if changes.isEmpty then "no changes detected"
  else String.intercalate ", " (changes.map (fun p => p.1 ++ " → " ++ p.2))

/-- `_handle_create_task`: parse the message (reading only the user
directory for prompt context) and propose a creation. -/
def handle_create_task (decode : String → Option ParsedTask) (reply : OllamaReply)
    (tomorrowStr nextWeekStr : String) (message : String) (_user_id : Nat)
    (store : List Task) : ChatResult × List Task :=
  let task_data := parse_natural_language_task decode reply message tomorrowStr nextWeekStr
  ({ action := "create_task", parsed := some task_data,
     message := "I can create a task titled '" ++ task_data.title.getD "" ++ "' with " ++
       task_data.priority.getD "" ++ " priority. Would you like me to proceed?",
     confirmation_needed := true }, store)

/-- `_handle_edit_task`. -/
def handle_edit_task (message : String) (user_id : Nat)
    (store : List Task) : ChatResult × List Task :=
  match find_task_from_message message user_id store with
  | none =>
    ({ action := "error",
       message := "I couldn't find the task you want to edit. Please be more specific or provide the task ID." }, store)
  | some task =>
    let changes := extract_changes_from_message message
    ({ action := "edit_task", task_id := some task.id, task_title := some task.title,
       changes := changes,
       message := "I can update the task '" ++ task.title ++
         "' with the following changes: " ++ format_changes changes ++ ". Should I proceed?",
       confirmation_needed := true }, store)

/-- `_handle_move_task`. -/
def handle_move_task (message : String) (user_id : Nat)
    (store : List Task) : ChatResult × List Task :=
  match find_task_from_message message user_id store with
  | none =>
    ({ action := "error",
       message := "I couldn't find the task you want to move. Please be more specific." }, store)
  | some task =>
    match extract_status_from_message message with
    | none =>
      ({ action := "error",
         message := "I couldn't determine where you want to move the task. Please specify: todo, in progress, in review, or completed." }, store)
    | some new_status =>
      ({ action := "move_task", task_id := some task.id, task_title := some task.title,
         current_status := some (statusVal task.status), new_status := some new_status,
         message := "I can move the task '" ++ task.title ++ "' from " ++
           statusVal task.status ++ " to " ++ new_status ++ ". Should I proceed?",
         confirmation_needed := true }, store)

/-- `_handle_delete_task`. -/
def handle_delete_task (message : String) (user_id : Nat)
    (store : List Task) : ChatResult × List Task :=
  match find_task_from_message message user_id store with
  | none =>
    ({ action := "error",
       message := "I couldn't find the task you want to delete. Please be more specific." }, store)
  | some task =>
    ({ action := "delete_task", task_id := some task.id, task_title := some task.title,
       message := "Are you sure you want to delete the task '" ++ task.title ++
         "'? This action cannot be undone.",
       confirmation_needed := true }, store)

/-- `_handle_assign_task`. -/
def handle_assign_task (message : String) (user_id : Nat)
    (store : List Task) (users : List User) : ChatResult × List Task :=
  match find_task_from_message message user_id store with
  | none =>
    ({ action := "error",
       message := "I couldn't find the task you want to assign. Please be more specific." }, store)
  | some task =>
    match extract_assignee_from_message message users with
    | none =>
      ({ action := "error",
         message := "I couldn't determine who you want to assign the task to. Please specify a username." }, store)
    | some assignee =>
      ({ action := "assign_task", task_id := some task.id, task_title := some task.title,
         assignee_id := some assignee.id, assignee_name := some assignee.username,
         message := "I can assign the task '" ++ task.title ++ "' to " ++
           assignee.username ++ ". Should I proceed?",
         confirmation_needed := true }, store)

/-- The owner-plus-filters query shared by the bulk handler. -/
def filteredOwnedTasks (user_id : Nat) (filters : Filters) (store : List Task) : List Task :=
  store.filter (fun t =>
    t.owner_id == user_id &&
    (match filters.status with
     | some s => t.status == s
     | none => true) &&
    (match filters.priority with
     | some p => t.priority == p
     | none => true))

/-- `_handle_bulk_operation`: the matching ids are computed at proposal time
and become the confirmed payload.  `intent_operation` is
`intent_data.get('operation', 'unknown')`. -/
def handle_bulk_operation (message : String) (user_id : Nat)
    (store : List Task) (intent_operation : Option String) : ChatResult × List Task :=
  let operation := intent_operation.getD "unknown"
  let filters := extract_filters_from_message message
  let tasks := filteredOwnedTasks user_id filters store
  if tasks.isEmpty then
    ({ action := "error",
       message := "No tasks found matching your criteria for bulk operation." }, store)
  else
    ({ action := "bulk_operation", operation := some operation,
       task_count := some tasks.length, task_ids := tasks.map (fun t => t.id),
       message := "This will " ++ operation ++ " " ++ toString tasks.length ++
         " tasks. Are you sure you want to proceed?",
       confirmation_needed := true }, store)

/-! ## Sample data used by witnesses and counterexamples -/

/-- A task owned by user 1, not completed. -/
def tMine : Task :=
  { id := 1, title := "fix login bug", description := some "auth fails",
    owner_id := 1, created_by_id := 1, created_at := 3 }

/-- A task owned by user 2 (foreign to user 1). -/
def tTheirs : Task :=
  { id := 2, title := "write report", owner_id := 2, created_by_id := 2, created_at := 4 }

/-- A completed task of user 2 with its timestamp set. -/
def tDone : Task :=
  { id := 4, title := "old chore", owner_id := 2, created_by_id := 2,
    status := .completed, completed_at := some 9, created_at := 5 }

/-- A decode function modelling a `json.loads` that always fails. -/
def decodeNone {α} : String → Option α := fun _ => none

/-- The data-model invariant of the spec: `completed_at` is set if and only
if the status is `completed`. -/
def completedConsistent (t : Task) : Bool :=
  t.completed_at.isSome == (t.status == TaskStatus.completed)

/-- A row is foreign to the requesting owner. -/
def notOwned (user_id : Nat) (t : Task) : Bool :=
  !(t.owner_id == user_id)

/-! ## General helper lemmas about the store transformers -/

/-- Filtering by `q` is unchanged by a conditional rewrite of rows that `q`
rejects (both before and after the rewrite). -/
theorem filter_map_frame {α} (g : α → α) (p q : α → Bool)
    (h : ∀ t, p t = true → q t = false ∧ q (g t) = false) (l : List α) :
    (l.map (fun u => if p u then g u else u)).filter q = l.filter q := by
  induction l with
  | nil => rfl
  | cons t l ih =>
    by_cases hp : p t = true
    · obtain ⟨h1, h2⟩ := h t hp
      simp [hp, h1, h2, ih]
    · simp only [Bool.not_eq_true] at hp
      simp only [List.map_cons, List.filter_cons, hp, Bool.false_eq_true, if_false, ih]

/-- Filtering by `q` is unchanged by first removing rows that `q` rejects. -/
theorem filter_sub_frame {α} (r q : α → Bool) (h : ∀ t, q t = true → r t = true)
    (l : List α) : (l.filter r).filter q = l.filter q := by
  induction l with
  | nil => rfl
  | cons t l ih =>
    by_cases hq : q t = true
    · simp [h t hq, hq, ih]
    · simp only [Bool.not_eq_true] at hq
      by_cases hr : r t = true
      · simp [hr, hq, ih]
      · simp only [Bool.not_eq_true] at hr
        simp [hr, hq, ih]

/-- A row returned by the owner-scoped `first()` fetch is owned. -/
theorem find_ownedTask_owner {tid uid : Nat} {store : List Task} {t : Task}
    (h : store.find? (ownedTask tid uid) = some t) : t.owner_id = uid := by
  have hp := List.find?_some h
  unfold ownedTask at hp
  simp only [Bool.and_eq_true, beq_iff_eq] at hp
  exact hp.2

/-! ## C9: keyword extraction -/

/-- C9 counterexample: the claim says every returned keyword (the token
after punctuation stripping) is longer than 2 characters, but the source
tests the length of the RAW token: for the message "go!" the raw token
"go!" has length 3, so the stripped keyword "go" of length 2 is returned. -/
theorem C9_counterexample :
    extract_keywords_from_message "go!" = ["go"] ∧ ("go" : String).length = 2 := by
  constructor
  · decide
  · rfl

/-- C9 amended: keyword extraction returns at most 3 keywords, none of them
in the stop-word set, and each of them the punctuation-stripped form of some
whitespace token of the lowercased message whose RAW length exceeds 2 (the
stripped keyword itself may be 2 characters or shorter). -/
theorem C9_keyword_extraction (m : String) :
    (extract_keywords_from_message m).length ≤ 3 ∧
    (extract_keywords_from_message m).all (fun k => !(stop_words.contains k)) = true ∧
    (extract_keywords_from_message m).all (fun k =>
      (splitWs (pyLower m)).any (fun w => decide (2 < w.length) && (stripPunct w == k))) = true := by
  unfold extract_keywords_from_message
  refine ⟨?_, ?_, ?_⟩
  · simpa using List.length_take_le 3 _
  · rw [List.all_eq_true]
    intro k hk
    obtain ⟨w, hw, rfl⟩ := List.mem_map.mp (List.mem_of_mem_take hk)
    have hp := (List.mem_filter.mp hw).2
    simp only [Bool.and_eq_true] at hp
    simpa using hp.1
  · rw [List.all_eq_true]
    intro k hk
    obtain ⟨w, hw, rfl⟩ := List.mem_map.mp (List.mem_of_mem_take hk)
    obtain ⟨hwmem, hp⟩ := List.mem_filter.mp hw
    simp only [Bool.and_eq_true] at hp
    rw [List.any_eq_true]
    exact ⟨w, hwmem, by simp [hp.2]⟩

/-! ## C10: natural-language task parsing -/

/-- C10 counterexample: the claim says every parse result has a non-empty
title, but the heuristic fallback (taken whenever the model reply is
unusable) titles the task with the stripped text before the first period,
which is empty for the empty input; the fallback result is not passed
through `_validate_parsed_task`. -/
theorem C10_counterexample :
    (parse_natural_language_task decodeNone OllamaReply.err "" "d1" "d2").title = some "" := by
  decide

theorem vDue_priority (td : ParsedTask) : (vDue td).priority = td.priority := by
  unfold vDue
  cases h : td.due_date <;> simp [h] <;> split <;> rfl

theorem vDue_status (td : ParsedTask) : (vDue td).status = td.status := by
  unfold vDue
  cases h : td.due_date <;> simp [h] <;> split <;> rfl

theorem vDue_title (td : ParsedTask) : (vDue td).title = td.title := by
  unfold vDue
  cases h : td.due_date <;> simp [h] <;> split <;> rfl

theorem vStatus_priority (td : ParsedTask) : (vStatus td).priority = td.priority := by
  unfold vStatus
  split <;> rfl

theorem vStatus_title (td : ParsedTask) : (vStatus td).title = td.title := by
  unfold vStatus
  split <;> rfl

theorem vPriority_title (td : ParsedTask) : (vPriority td).title = td.title := by
  unfold vPriority
  split <;> rfl

theorem vPriority_valid (td : ParsedTask) :
    valid_priorities.contains ((vPriority td).priority.getD "") = true := by
  unfold vPriority
  split_ifs with h
  · exact h
  · rfl

theorem vStatus_valid (td : ParsedTask) :
    valid_statuses.contains ((vStatus td).status.getD "") = true := by
  unfold vStatus
  split_ifs with h
  · exact h
  · rfl

theorem vTitle_nonempty (td : ParsedTask) :
    ((vTitle td).title.getD "").isEmpty = false := by
  unfold vTitle
  split_ifs with h
  · rfl
  · simp only [Bool.not_eq_true] at h
    exact h

theorem validate_priority_valid (td : ParsedTask) :
    valid_priorities.contains ((validate_parsed_task td).priority.getD "") = true := by
  unfold validate_parsed_task
  rw [vDue_priority, vStatus_priority]
  exact vPriority_valid _

theorem validate_status_valid (td : ParsedTask) :
    valid_statuses.contains ((validate_parsed_task td).status.getD "") = true := by
  unfold validate_parsed_task
  rw [vDue_status]
  exact vStatus_valid _

theorem validate_title_nonempty (td : ParsedTask) :
    ((validate_parsed_task td).title.getD "").isEmpty = false := by
  unfold validate_parsed_task
  rw [vDue_title, vStatus_title, vPriority_title]
  exact vTitle_nonempty _

theorem fallback_priority_valid (input d1 d2 : String) :
    valid_priorities.contains ((fallback_parse input d1 d2).priority.getD "") = true := by
  unfold fallback_parse
  dsimp only [Option.getD]
  split_ifs <;> rfl

theorem fallback_status_todo (input d1 d2 : String) :
    (fallback_parse input d1 d2).status = some "todo" := by
  unfold fallback_parse
  dsimp only []

theorem fallback_title_short (input d1 d2 : String) :
    ((fallback_parse input d1 d2).title.getD "").length ≤ 100 := by
  unfold fallback_parse
  dsimp only [Option.getD]
  split_ifs with h
  · rw [String.length_append]
    have h97 : (String.mk ((pyStrip ((splitDot input).headD "")).toList.take 97)).length ≤ 97 := by
      show ((pyStrip ((splitDot input).headD "")).toList.take 97).length ≤ 97
      simpa using List.length_take_le 97 _
    have hdots : ("..." : String).length = 3 := rfl
    omega
  · omega

/-- C10 amended: every parse result has a priority in
{low, medium, high, urgent} and a status in
{todo, in_progress, in_review, completed}; the validated (model-decoded)
result additionally has a non-empty title (a missing one becomes
"New Task"); the heuristic fallback's title is at most 100 characters but
may be empty. -/
theorem C10_parse_normalisation (decode : String → Option ParsedTask)
    (reply : OllamaReply) (user_input tomorrowStr nextWeekStr : String) :
    valid_priorities.contains
      ((parse_natural_language_task decode reply user_input tomorrowStr nextWeekStr).priority.getD "") = true ∧
    valid_statuses.contains
      ((parse_natural_language_task decode reply user_input tomorrowStr nextWeekStr).status.getD "") = true ∧
    (∀ td : ParsedTask, ((validate_parsed_task td).title.getD "").isEmpty = false) ∧
    (∀ input d1 d2 : String, ((fallback_parse input d1 d2).title.getD "").length ≤ 100) := by
  have hstep : parse_natural_language_task decode reply user_input tomorrowStr nextWeekStr =
      fallback_parse user_input tomorrowStr nextWeekStr ∨
      ∃ result, parse_natural_language_task decode reply user_input tomorrowStr nextWeekStr =
        validate_parsed_task result := by
    cases reply with
    | err => exact Or.inl rfl
    | ok response =>
      cases hb : braceSpan response with
      | none => exact Or.inl (by simp [parse_natural_language_task, hb])
      | some js =>
        cases hd : decode js with
        | none => exact Or.inl (by simp [parse_natural_language_task, hb, hd])
        | some result => exact Or.inr ⟨result, by simp [parse_natural_language_task, hb, hd]⟩
  refine ⟨?_, ?_, validate_title_nonempty, fallback_title_short⟩ <;>
    rcases hstep with h | ⟨result, h⟩ <;> rw [h]
  · exact fallback_priority_valid _ _ _
  · exact validate_priority_valid _
  · rw [fallback_status_todo]
    rfl
  · exact validate_status_valid _

/-! ## C4: classifier fallback on malformed replies -/

/-- C4: whenever the text-generation call raises, or its reply contains no
brace span, or the brace span fails to decode as JSON, intent classification
returns exactly the deterministic fallback classification; the fallback's
action is always drawn from the fixed ten-member vocabulary, and when none
of its keywords matches it defaults to action "general" with confidence
0.5. -/
theorem C4_classifier_fallback (decode : String → Option Intent)
    (reply : OllamaReply) (message : String)
    (h : match reply with
         | .err => True
         | .ok response =>
             braceSpan response = none ∨
             ∃ js, braceSpan response = some js ∧ decode js = none) :
    classify_intent decode reply message = fallback_classify message ∧
    actionVocab.contains (fallback_classify message).action = true ∧
    (no_fallback_keyword message = true →
      fallback_classify message = { action := "general", confidence := 0.5 }) := by
  refine ⟨?_, ?_, ?_⟩
  · cases reply with
    | err => rfl
    | ok response =>
      rcases h with hb | ⟨js, hb, hd⟩
      · simp [classify_intent, hb]
      · simp [classify_intent, hb, hd]
  · unfold fallback_classify
    dsimp only
    split_ifs <;> rfl
  · intro hn
    unfold fallback_classify
    dsimp only
    split_ifs with g1 g2 g3 g4 g5 g6 g7 g8
    all_goals first
      | rfl
      | (exfalso
         simp only [no_fallback_keyword, Bool.and_eq_true, Bool.not_eq_true'] at hn
         simp_all)

/-- C4 witness: a reply with no JSON object at all falls back at a concrete
message. -/
theorem C4_classifier_fallback_witness :
    braceSpan "I am sorry, I cannot answer that." = none ∧
    classify_intent decodeNone (OllamaReply.ok "I am sorry, I cannot answer that.")
      "hello there" = fallback_classify "hello there" :=
  ⟨rfl,
   (C4_classifier_fallback decodeNone (OllamaReply.ok "I am sorry, I cannot answer that.")
     "hello there" (Or.inl rfl)).1⟩

/-! ## C5: explicit task references -/

/-- C5: for every message carrying an explicit `#<digits>` or
`task <digits>` reference (leftmost match, first alternative preferred), the
Task Locator returns exactly the owner-scoped direct fetch of that id — in
particular `none` when the id is absent for this owner — and the
keyword-search branch is never consulted. -/
theorem C5_explicit_reference (message : String) (user_id tid : Nat)
    (store : List Task) (h : findTaskRef message.toList = some tid) :
    find_task_from_message message user_id store = store.find? (ownedTask tid user_id) := by
  unfold find_task_from_message
  rw [h]

/-- C5 witness: "task 7 login" carries the explicit reference 7; against a
store whose only task (id 1, title "fix login bug") would match the keyword
"login", the locator nevertheless returns `none`. -/
theorem C5_explicit_reference_witness :
    findTaskRef "task 7 login".toList = some 7 ∧
    find_task_from_message "task 7 login" 1 [tMine] = [tMine].find? (ownedTask 7 1) ∧
    [tMine].find? (ownedTask 7 1) = none :=
  ⟨rfl, C5_explicit_reference "task 7 login" 1 7 [tMine] rfl, rfl⟩

/-! ## C8: status-extraction round trip through the move executor -/

/-- C8: extracting a status change from "move it to in review" yields
`in_review`, and executing a move to `in_review` on any owned task leaves
the returned row (and every owner-matching row of the store) with status
`in_review` and a cleared `completed_at`. -/
theorem C8_move_roundtrip :
    extract_status_from_message "move it to in review" = some "in_review" ∧
    ∀ (tid uid : Nat) (store : List Task) (now : Nat) (t : Task),
      store.find? (ownedTask tid uid) = some t →
      ((execute_task_move tid "in_review" uid store true now).1.task.map Task.status
          = some TaskStatus.in_review ∧
       (execute_task_move tid "in_review" uid store true now).1.task.map Task.completed_at
          = some none ∧
       ∀ u ∈ (execute_task_move tid "in_review" uid store true now).2,
         ownedTask tid uid u = true →
           u.status = TaskStatus.in_review ∧ u.completed_at = none) := by
  constructor
  · decide
  · intro tid uid store now t h
    have hred : execute_task_move tid "in_review" uid store true now =
        ({ success := true, task := some { t with status := TaskStatus.in_review, updated_at := some now, completed_at := none }, message := "✅ Task '" ++ t.title ++ "' moved from " ++ statusVal t.status ++ " to " ++ "in_review" ++ "!" },
         store.map (fun u => if ownedTask tid uid u then { t with status := TaskStatus.in_review, updated_at := some now, completed_at := none } else u)) := by
      unfold execute_task_move
      rw [h]
      have hsm : status_map "in_review" = some TaskStatus.in_review := rfl
      rw [hsm]
      cases hco : t.completed_at <;> simp [hco]
    rw [hred]
    refine ⟨rfl, rfl, ?_⟩
    intro u hu hou
    obtain ⟨x, _, rfl⟩ := List.mem_map.mp hu
    by_cases hx : ownedTask tid uid x = true
    · rw [if_pos hx]
      exact ⟨rfl, rfl⟩
    · rw [if_neg hx] at hou ⊢
      exact absurd hou hx

/-- C8 witness: moving the completed task `tDone` (whose `completed_at` is
set) to `in_review` clears the timestamp. -/
theorem C8_move_roundtrip_witness :
    [tDone].find? (ownedTask 4 2) = some tDone ∧
    (execute_task_move 4 "in_review" 2 [tDone] true 11).1.task.map Task.status
      = some TaskStatus.in_review ∧
    (execute_task_move 4 "in_review" 2 [tDone] true 11).1.task.map Task.completed_at
      = some none :=
  ⟨rfl, (C8_move_roundtrip.2 4 2 [tDone] 11 tDone rfl).1,
   (C8_move_roundtrip.2 4 2 [tDone] 11 tDone rfl).2.1⟩

/-! ## C2: the propose phase never mutates the store -/

/-- C2: every propose-phase handler (create, edit, move, delete, assign,
bulk) returns the task store exactly as it received it — the handlers only
read — and its response either carries `confirmation_needed = true` or is an
error result. -/
theorem C2_proposer_no_mutation :
    (∀ (decode : String → Option ParsedTask) (reply : OllamaReply)
       (d1 d2 message : String) (uid : Nat) (store : List Task),
      (handle_create_task decode reply d1 d2 message uid store).2 = store ∧
      ((handle_create_task decode reply d1 d2 message uid store).1.confirmation_needed = true ∨
       (handle_create_task decode reply d1 d2 message uid store).1.action = "error")) ∧
    (∀ (message : String) (uid : Nat) (store : List Task),
      (handle_edit_task message uid store).2 = store ∧
      ((handle_edit_task message uid store).1.confirmation_needed = true ∨
       (handle_edit_task message uid store).1.action = "error")) ∧
    (∀ (message : String) (uid : Nat) (store : List Task),
      (handle_move_task message uid store).2 = store ∧
      ((handle_move_task message uid store).1.confirmation_needed = true ∨
       (handle_move_task message uid store).1.action = "error")) ∧
    (∀ (message : String) (uid : Nat) (store : List Task),
      (handle_delete_task message uid store).2 = store ∧
      ((handle_delete_task message uid store).1.confirmation_needed = true ∨
       (handle_delete_task message uid store).1.action = "error")) ∧
    (∀ (message : String) (uid : Nat) (store : List Task) (users : List User),
      (handle_assign_task message uid store users).2 = store ∧
      ((handle_assign_task message uid store users).1.confirmation_needed = true ∨
       (handle_assign_task message uid store users).1.action = "error")) ∧
    (∀ (message : String) (uid : Nat) (store : List Task) (op : Option String),
      (handle_bulk_operation message uid store op).2 = store ∧
      ((handle_bulk_operation message uid store op).1.confirmation_needed = true ∨
       (handle_bulk_operation message uid store op).1.action = "error")) := by
  refine ⟨?_, ?_, ?_, ?_, ?_, ?_⟩
  · intro decode reply d1 d2 message uid store
    exact ⟨rfl, Or.inl rfl⟩
  · intro message uid store
    cases h : find_task_from_message message uid store <;> simp [handle_edit_task, h]
  · intro message uid store
    cases h : find_task_from_message message uid store with
    | none => simp [handle_move_task, h]
    | some t =>
      cases h2 : extract_status_from_message message <;> simp [handle_move_task, h, h2]
  · intro message uid store
    cases h : find_task_from_message message uid store <;> simp [handle_delete_task, h]
  · intro message uid store users
    cases h : find_task_from_message message uid store with
    | none => simp [handle_assign_task, h]
    | some t =>
      cases h2 : extract_assignee_from_message message users <;> simp [handle_assign_task, h, h2]
  · intro message uid store op
    cases h : (filteredOwnedTasks uid (extract_filters_from_message message) store).isEmpty <;>
      simp [handle_bulk_operation, h]

/-! ## C6: transactional rollback on mid-mutation failure -/

/-- C6: for every executor operation and payload, when the commit fails
(`commitOk = false`, the apply-phase exception) the `except` branch rolls
the transaction back: the store is returned exactly as it was and the
result has `success = false` — there are no partial writes, including for
bulk operations, and no exception escapes (the executors are total). -/
theorem C6_rollback_on_failure :
    (∀ (td : ParsedTask) (uid : Nat) (store : List Task) (now nid : Nat),
      (execute_task_creation td uid store false now nid).2 = store ∧
      (execute_task_creation td uid store false now nid).1.success = false) ∧
    (∀ (tid : Nat) (ch : List (String × String)) (uid : Nat) (store : List Task) (now : Nat),
      (execute_task_edit tid ch uid store false now).2 = store ∧
      (execute_task_edit tid ch uid store false now).1.success = false) ∧
    (∀ (tid : Nat) (ns : String) (uid : Nat) (store : List Task) (now : Nat),
      (execute_task_move tid ns uid store false now).2 = store ∧
      (execute_task_move tid ns uid store false now).1.success = false) ∧
    (∀ (tid aid uid : Nat) (store : List Task) (users : List User) (now : Nat),
      (execute_task_assignment tid aid uid store users false now).2 = store ∧
      (execute_task_assignment tid aid uid store users false now).1.success = false) ∧
    (∀ (tid uid : Nat) (store : List Task),
      (execute_task_deletion tid uid store false).2 = store ∧
      (execute_task_deletion tid uid store false).1.success = false) ∧
    (∀ (op : String) (ids : List Nat) (uid : Nat) (store : List Task) (now : Nat),
      (execute_bulk_operation op ids uid store false now).2 = store ∧
      (execute_bulk_operation op ids uid store false now).1.success = false) := by
  refine ⟨?_, ?_, ?_, ?_, ?_, ?_⟩
  · intro td uid store now nid
    cases h : td.title <;> simp [execute_task_creation, h]
  · intro tid ch uid store now
    cases h : store.find? (ownedTask tid uid) with
    | none => simp [execute_task_edit, h]
    | some t =>
      simp only [execute_task_edit, h]
      split <;> simp
  · intro tid ns uid store now
    cases h : store.find? (ownedTask tid uid) with
    | none => simp [execute_task_move, h]
    | some t =>
      cases h2 : status_map ns <;> simp [execute_task_move, h, h2]
  · intro tid aid uid store users now
    cases h : store.find? (ownedTask tid uid) with
    | none => simp [execute_task_assignment, h]
    | some t =>
      cases h2 : users.find? (fun u => u.id == aid) <;> simp [execute_task_assignment, h, h2]
  · intro tid uid store
    cases h : store.find? (ownedTask tid uid) <;> simp [execute_task_deletion, h]
  · intro op ids uid store now
    cases h : (store.filter (bulkSel ids uid)).isEmpty with
    | true => simp [execute_bulk_operation, h]
    | false =>
      cases h2 : op == "delete" with
      | true => simp [execute_bulk_operation, h, h2]
      | false =>
        cases h3 : op == "complete" <;> simp [execute_bulk_operation, h, h2, h3]

/-! ## C7: bulk operations support exactly delete and complete -/

/-- C7: when at least one payload id resolves to an owned task, any
operation other than "delete" and "complete" fails with the unsupported-
operation message and leaves the store untouched; "delete" removes exactly
the owned rows among the payload ids and no others, and "complete" sets
exactly those rows to `completed` with `completed_at` set. -/
theorem C7_bulk_operations :
    (∀ (op : String) (ids : List Nat) (uid : Nat) (store : List Task) (ok : Bool) (now : Nat),
      op ≠ "delete" → op ≠ "complete" →
      (store.filter (bulkSel ids uid)).isEmpty = false →
      execute_bulk_operation op ids uid store ok now =
        ({ success := false, message := "❌ Unsupported bulk operation: " ++ op }, store)) ∧
    (∀ (ids : List Nat) (uid : Nat) (store : List Task) (now : Nat),
      (store.filter (bulkSel ids uid)).isEmpty = false →
      (execute_bulk_operation "delete" ids uid store true now).1.success = true ∧
      (execute_bulk_operation "delete" ids uid store true now).2 =
        store.filter (fun t => !bulkSel ids uid t)) ∧
    (∀ (ids : List Nat) (uid : Nat) (store : List Task) (now : Nat),
      (store.filter (bulkSel ids uid)).isEmpty = false →
      (execute_bulk_operation "complete" ids uid store true now).1.success = true ∧
      (execute_bulk_operation "complete" ids uid store true now).2 =
        store.map (fun t => if bulkSel ids uid t then { t with status := TaskStatus.completed, completed_at := some now, updated_at := some now } else t)) := by
  refine ⟨?_, ?_, ?_⟩
  · intro op ids uid store ok now h1 h2 h3
    have hd : (op == "delete") = false := by
      simpa using h1
    have hc : (op == "complete") = false := by
      simpa using h2
    simp [execute_bulk_operation, h3, hd, hc]
  · intro ids uid store now h3
    constructor <;> simp [execute_bulk_operation, h3]
  · intro ids uid store now h3
    constructor <;> simp [execute_bulk_operation, h3]

/-- C7 witness: against the one-task store of user 1, the operation
"archive" is rejected without touching the store, while "delete" and
"complete" succeed. -/
theorem C7_bulk_operations_witness :
    ([tMine].filter (bulkSel [1] 1)).isEmpty = false ∧
    execute_bulk_operation "archive" [1] 1 [tMine] true 6 =
      ({ success := false, message := "❌ Unsupported bulk operation: " ++ "archive" }, [tMine]) ∧
    (execute_bulk_operation "delete" [1] 1 [tMine] true 6).2 =
      [tMine].filter (fun t => !bulkSel [1] 1 t) ∧
    (execute_bulk_operation "complete" [1] 1 [tMine] true 6).1.success = true :=
  ⟨rfl,
   C7_bulk_operations.1 "archive" [1] 1 [tMine] true 6
     (by decide) (by decide) rfl,
   (C7_bulk_operations.2.1 [1] 1 [tMine] 6 rfl).2,
   (C7_bulk_operations.2.2 [1] 1 [tMine] 6 rfl).1⟩

/-! ## C1: the completed_at / status invariant -/

/-- C1 counterexample: editing a task's status to `completed` through
`execute_task_edit` succeeds but leaves `completed_at` null — the edit path
never touches `completed_at`, so the claimed invariant fails after a
successful mutation. -/
theorem C1_counterexample :
    (execute_task_edit 1 [("status", "completed")] 1 [tMine] true 5).1.success = true ∧
    (execute_task_edit 1 [("status", "completed")] 1 [tMine] true 5).2.map
      (fun t => (t.status, t.completed_at)) = [(TaskStatus.completed, none)] := by
  constructor
  · decide
  · decide

theorem status_map_eq_completed {s : String}
    (h : status_map s = some TaskStatus.completed) : s = "completed" := by
  unfold status_map at h
  split_ifs at h <;> simp_all

/-- C1 amended: the invariant "`completed_at` is set iff `status ==
completed`" is preserved by `execute_task_move` and
`execute_bulk_operation` (which maintain `completed_at` explicitly), but it
is NOT maintained by the other mutation paths: `execute_task_creation`
never sets `completed_at` on the inserted row, whatever status the payload
requests, and `execute_task_edit` never touches `completed_at` at all (see
the counterexample). -/
theorem C1_completed_at_invariant :
    (∀ (tid : Nat) (ns : String) (uid : Nat) (store : List Task) (ok : Bool) (now : Nat),
      store.all completedConsistent = true →
      (execute_task_move tid ns uid store ok now).2.all completedConsistent = true) ∧
    (∀ (op : String) (ids : List Nat) (uid : Nat) (store : List Task) (ok : Bool) (now : Nat),
      store.all completedConsistent = true →
      (execute_bulk_operation op ids uid store ok now).2.all completedConsistent = true) ∧
    (∀ (td : ParsedTask) (uid : Nat) (store : List Task) (now nid : Nat),
      (execute_task_creation td uid store true now nid).1.task.map Task.completed_at = some none ∨
      (execute_task_creation td uid store true now nid).1.success = false) := by
  refine ⟨?_, ?_, ?_⟩
  · intro tid ns uid store ok now hInv
    cases h : store.find? (ownedTask tid uid) with
    | none => simpa [execute_task_move, h] using hInv
    | some t =>
      cases h2 : status_map ns with
      | none => simpa [execute_task_move, h, h2] using hInv
      | some st =>
        cases ok with
        | false => simpa [execute_task_move, h, h2] using hInv
        | true =>
          simp only [execute_task_move, h, h2]
          rw [List.all_eq_true]
          intro u hu
          obtain ⟨x, hx, rfl⟩ := List.mem_map.mp hu
          by_cases hox : ownedTask tid uid x = true
          · rw [if_pos hox]
            cases hns : ns == "completed" with
            | true =>
              have : st = TaskStatus.completed := by
                rw [show ns = "completed" from by simpa using hns] at h2
                simpa [status_map] using h2.symm
              simp [completedConsistent, this]
            | false =>
              have hst : (st == TaskStatus.completed) = false := by
                cases hstc : st == TaskStatus.completed with
                | false => rfl
                | true =>
                  have : ns = "completed" :=
                    status_map_eq_completed (by rwa [show st = TaskStatus.completed from by simpa using hstc] at h2)
                  rw [this] at hns
                  simp at hns
              simp only [hns, Bool.false_eq_true, if_false]
              cases hco : t.completed_at <;>
                simp [hco, completedConsistent, hst]
          · rw [if_neg hox]
            exact List.all_eq_true.mp hInv x hx
  · intro op ids uid store ok now hInv
    cases h : (store.filter (bulkSel ids uid)).isEmpty with
    | true => simpa [execute_bulk_operation, h] using hInv
    | false =>
      cases hd : op == "delete" with
      | true =>
        cases ok with
        | false => simpa [execute_bulk_operation, h, hd] using hInv
        | true =>
          simp only [execute_bulk_operation, h, hd]
          rw [List.all_eq_true]
          intro u hu
          exact List.all_eq_true.mp hInv u (List.mem_of_mem_filter hu)
      | false =>
        cases hc : op == "complete" with
        | false => simpa [execute_bulk_operation, h, hd, hc] using hInv
        | true =>
          cases ok with
          | false => simpa [execute_bulk_operation, h, hd, hc] using hInv
          | true =>
            simp only [execute_bulk_operation, h, hd, hc]
            rw [List.all_eq_true]
            intro u hu
            simp only [Bool.false_eq_true, if_false, if_true] at hu ⊢
            obtain ⟨x, hx, rfl⟩ := List.mem_map.mp hu
            by_cases hox : bulkSel ids uid x = true
            · rw [if_pos hox]
              simp [completedConsistent]
            · rw [if_neg hox]
              exact List.all_eq_true.mp hInv x hx
  · intro td uid store now nid
    cases h : td.title <;> simp [execute_task_creation, h]

/-- C1 witness: moving the completed task `tDone` back to `todo` and
bulk-completing `tMine` both preserve the invariant on concrete stores. -/
theorem C1_completed_at_invariant_witness :
    [tDone].all completedConsistent = true ∧
    (execute_task_move 4 "todo" 2 [tDone] true 12).2.all completedConsistent = true ∧
    (execute_bulk_operation "complete" [1] 1 [tMine] true 12).2.all completedConsistent = true :=
  ⟨rfl, C1_completed_at_invariant.1 4 "todo" 2 [tDone] true 12 rfl,
   C1_completed_at_invariant.2.1 "complete" [1] 1 [tMine] true 12 rfl⟩

/-! ## C3: owner scoping of the executors -/

/-- C3 counterexample: a bulk payload mixing an owned id (1) and a foreign
id (2) does NOT yield a not-found failure: the operation succeeds on the
owned row and silently skips the foreign one. -/
theorem C3_counterexample :
    (execute_bulk_operation "delete" [1, 2] 1 [tMine, tTheirs] true 5).1.success = true ∧
    (execute_bulk_operation "delete" [1, 2] 1 [tMine, tTheirs] true 5).2 = [tTheirs] := by
  constructor
  · decide
  · decide

theorem ownedTask_notOwned {tid uid : Nat} {x : Task}
    (hx : ownedTask tid uid x = true) : notOwned uid x = false := by
  unfold ownedTask at hx
  simp only [Bool.and_eq_true] at hx
  unfold notOwned
  simp [hx.2]

theorem notOwned_of_owner {uid : Nat} {x : Task} (h : x.owner_id = uid) :
    notOwned uid x = false := by
  simp [notOwned, h]

theorem notOwned_ownedTask_false {tid uid : Nat} {x : Task}
    (h : notOwned uid x = true) : ownedTask tid uid x = false := by
  unfold notOwned at h
  simp only [Bool.not_eq_true'] at h
  unfold ownedTask
  simp [h]

theorem bulkSel_notOwned {ids : List Nat} {uid : Nat} {x : Task}
    (hx : bulkSel ids uid x = true) : notOwned uid x = false := by
  unfold bulkSel at hx
  simp only [Bool.and_eq_true] at hx
  unfold notOwned
  simp [hx.2]

theorem notOwned_bulkSel_false {ids : List Nat} {uid : Nat} {x : Task}
    (h : notOwned uid x = true) : bulkSel ids uid x = false := by
  unfold notOwned at h
  simp only [Bool.not_eq_true'] at h
  unfold bulkSel
  simp [h]

theorem apply_changes_owner (ch : List (String × String)) :
    ∀ (t : Task) (ups : List String), (apply_changes t ups ch).1.owner_id = t.owner_id := by
  induction ch with
  | nil =>
    intro t ups
    rfl
  | cons fv rest ih =>
    intro t ups
    obtain ⟨f, v⟩ := fv
    unfold apply_changes
    split_ifs
    · cases hpm : priority_map v
      · exact ih t ups
      · exact ih _ _
    · cases hsm : status_map v
      · exact ih t ups
      · exact ih _ _
    · exact ih _ _
    · exact ih _ _
    · exact ih t ups

/-- C3 amended: every executor reads and mutates only rows owned by the
requester — the foreign part of the store passes through every executor
unchanged.  For the single-task executors (edit, move, assign, delete) an
id that is not owned yields the not-found failure with no mutation; the
bulk executor instead silently SKIPS foreign ids and returns the not-found
failure only when no payload id resolves to an owned row (see the
counterexample for the mixed-payload behaviour the original claim
ascribes to it). -/
theorem C3_owner_scoping :
    (∀ (tid : Nat) (ch : List (String × String)) (uid : Nat) (store : List Task) (ok : Bool) (now : Nat),
      (execute_task_edit tid ch uid store ok now).2.filter (notOwned uid) =
        store.filter (notOwned uid)) ∧
    (∀ (tid : Nat) (ns : String) (uid : Nat) (store : List Task) (ok : Bool) (now : Nat),
      (execute_task_move tid ns uid store ok now).2.filter (notOwned uid) =
        store.filter (notOwned uid)) ∧
    (∀ (tid aid uid : Nat) (store : List Task) (users : List User) (ok : Bool) (now : Nat),
      (execute_task_assignment tid aid uid store users ok now).2.filter (notOwned uid) =
        store.filter (notOwned uid)) ∧
    (∀ (tid uid : Nat) (store : List Task) (ok : Bool),
      (execute_task_deletion tid uid store ok).2.filter (notOwned uid) =
        store.filter (notOwned uid)) ∧
    (∀ (op : String) (ids : List Nat) (uid : Nat) (store : List Task) (ok : Bool) (now : Nat),
      (execute_bulk_operation op ids uid store ok now).2.filter (notOwned uid) =
        store.filter (notOwned uid)) ∧
    (∀ (tid : Nat) (ch : List (String × String)) (uid : Nat) (store : List Task) (ok : Bool) (now : Nat),
      store.find? (ownedTask tid uid) = none →
      execute_task_edit tid ch uid store ok now =
        ({ success := false, message := "❌ Task not found" }, store)) ∧
    (∀ (tid : Nat) (ns : String) (uid : Nat) (store : List Task) (ok : Bool) (now : Nat),
      store.find? (ownedTask tid uid) = none →
      execute_task_move tid ns uid store ok now =
        ({ success := false, message := "❌ Task not found" }, store)) ∧
    (∀ (tid aid uid : Nat) (store : List Task) (users : List User) (ok : Bool) (now : Nat),
      store.find? (ownedTask tid uid) = none →
      execute_task_assignment tid aid uid store users ok now =
        ({ success := false, message := "❌ Task not found" }, store)) ∧
    (∀ (tid uid : Nat) (store : List Task) (ok : Bool),
      store.find? (ownedTask tid uid) = none →
      execute_task_deletion tid uid store ok =
        ({ success := false, message := "❌ Task not found" }, store)) ∧
    (∀ (op : String) (ids : List Nat) (uid : Nat) (store : List Task) (ok : Bool) (now : Nat),
      (store.filter (bulkSel ids uid)).isEmpty = true →
      execute_bulk_operation op ids uid store ok now =
        ({ success := false, message := "❌ No tasks found" }, store)) := by
  refine ⟨?_, ?_, ?_, ?_, ?_, ?_, ?_, ?_, ?_, ?_⟩
  · intro tid ch uid store ok now
    cases h : store.find? (ownedTask tid uid) with
    | none => simp [execute_task_edit, h]
    | some t =>
      have howner := find_ownedTask_owner h
      simp only [execute_task_edit, h]
      split
      · rfl
      · cases ok with
        | false => rfl
        | true =>
          simp only [if_true]
          refine filter_map_frame _ _ _ (fun x hx => ⟨ownedTask_notOwned hx, ?_⟩) store
          refine notOwned_of_owner ?_
          show (apply_changes t [] ch).1.owner_id = uid
          rw [apply_changes_owner]
          exact howner
  · intro tid ns uid store ok now
    cases h : store.find? (ownedTask tid uid) with
    | none => simp [execute_task_move, h]
    | some t =>
      have howner := find_ownedTask_owner h
      cases h2 : status_map ns with
      | none => simp [execute_task_move, h, h2]
      | some st =>
        cases ok with
        | false => simp [execute_task_move, h, h2]
        | true =>
          simp only [execute_task_move, h, h2, if_true]
          refine filter_map_frame _ _ _ (fun x hx => ⟨ownedTask_notOwned hx, ?_⟩) store
          refine notOwned_of_owner ?_
          split_ifs <;> exact howner
  · intro tid aid uid store users ok now
    cases h : store.find? (ownedTask tid uid) with
    | none => simp [execute_task_assignment, h]
    | some t =>
      have howner := find_ownedTask_owner h
      cases h2 : users.find? (fun u => u.id == aid) with
      | none => simp [execute_task_assignment, h, h2]
      | some a =>
        cases ok with
        | false => simp [execute_task_assignment, h, h2]
        | true =>
          simp only [execute_task_assignment, h, h2, if_true]
          refine filter_map_frame _ _ _ (fun x hx => ⟨ownedTask_notOwned hx, ?_⟩) store
          exact notOwned_of_owner howner
  · intro tid uid store ok
    cases h : store.find? (ownedTask tid uid) with
    | none => simp [execute_task_deletion, h]
    | some t =>
      cases ok with
      | false => simp [execute_task_deletion, h]
      | true =>
        simp only [execute_task_deletion, h, if_true]
        exact filter_sub_frame _ _
          (fun x hx => by simp [notOwned_ownedTask_false hx]) store
  · intro op ids uid store ok now
    cases h : (store.filter (bulkSel ids uid)).isEmpty with
    | true => simp [execute_bulk_operation, h]
    | false =>
      cases hd : op == "delete" with
      | true =>
        cases ok with
        | false => simp [execute_bulk_operation, h, hd]
        | true =>
          simp only [execute_bulk_operation, h, hd]
          exact filter_sub_frame _ _
            (fun x hx => by simp [notOwned_bulkSel_false hx]) store
      | false =>
        cases hc : op == "complete" with
        | false => simp [execute_bulk_operation, h, hd, hc]
        | true =>
          cases ok with
          | false => simp [execute_bulk_operation, h, hd, hc]
          | true =>
            simp only [execute_bulk_operation, h, hd, hc]
            refine filter_map_frame _ _ _ (fun x hx => ⟨bulkSel_notOwned hx, ?_⟩) store
            exact bulkSel_notOwned hx
  · intro tid ch uid store ok now h
    simp [execute_task_edit, h]
  · intro tid ns uid store ok now h
    simp [execute_task_move, h]
  · intro tid aid uid store users ok now h
    simp [execute_task_assignment, h]
  · intro tid uid store ok h
    simp [execute_task_deletion, h]
  · intro op ids uid store ok now h
    simp [execute_bulk_operation, h]

/-- C3 witness: an id owned by user 2 is not found for user 1, with no
mutation, both on the single-task delete path and on the bulk path. -/
theorem C3_owner_scoping_witness :
    [tTheirs].find? (ownedTask 2 1) = none ∧
    execute_task_deletion 2 1 [tTheirs] true =
      ({ success := false, message := "❌ Task not found" }, [tTheirs]) ∧
    ([tTheirs].filter (bulkSel [2] 1)).isEmpty = true ∧
    execute_bulk_operation "delete" [2] 1 [tTheirs] true 6 =
      ({ success := false, message := "❌ No tasks found" }, [tTheirs]) :=
  ⟨rfl, C3_owner_scoping.2.2.2.2.2.2.2.2.1 2 1 [tTheirs] true rfl,
   rfl, C3_owner_scoping.2.2.2.2.2.2.2.2.2 "delete" [2] 1 [tTheirs] true 6 rfl⟩

end TaskMaster
